import Mathlib

/-!
Shallow embedding of the stock-forecasting pipeline of this repository:
`data-loader.js` (class `DataLoader`), `gru.js` (class `GRUModel`) and
`app.js` (class `StockPredictorApp`).

Numbers are modelled as exact rationals (`ℚ`); JavaScript strings are
modelled as Lean `String`s manipulated through their character lists so
that every definition is executable by the kernel.  Asynchronous
JavaScript methods that drive an external black box (`tf.Model.fit`,
`model.predict`, `model.evaluate`) are modelled as state transitions
parametrised by the outcome of the black-box call.
-/

namespace SP500

/-! ### Character-level models of the JavaScript string primitives used
by `data-loader.js`: `String.prototype.trim`, `String.prototype.split`
with a one-character separator, `parseFloat`, and `Number` coercion of
digit strings. -/

/-- Whitespace recognised by the model of `String.prototype.trim`
(space, tab, carriage return, line feed). -/
def isJsSpace (c : Char) : Bool :=
  c = ' ' || c = '\t' || c = '\r' || c = '\n'

/-- Model of `str.trim()` on the character list of the string. -/
def trimChars (l : List Char) : List Char :=
  ((l.dropWhile isJsSpace).reverse.dropWhile isJsSpace).reverse

/-- Model of `str.split(sep)` for a one-character separator `sep`:
`"".split(sep)` is `[""]`, a trailing separator yields a trailing
empty field, exactly as in JavaScript. -/
def splitOnChar (sep : Char) : List Char → List (List Char)
  | [] => [[]]
  | c :: rest =>
    let r := splitOnChar sep rest
    if c = sep then [] :: r
    else
      match r with
      | [] => [[c]]
      | g :: gs => (c :: g) :: gs

/-- Reads a maximal run of decimal digits: returns the value read, how
many digits were read, and the rest of the input. -/
def readDigits (acc : ℕ) (count : ℕ) : List Char → ℕ × ℕ × List Char
  | [] => (acc, count, [])
  | c :: rest =>
    if c.isDigit then readDigits (acc * 10 + (c.toNat - 48)) (count + 1) rest
    else (acc, count, c :: rest)

/-- Model of JavaScript `parseFloat` on an already-trimmed string:
an optional sign, then digits with an optional fractional part; any
trailing garbage is ignored (`parseFloat("1.5abc") = 1.5`); `none`
models `NaN` (no leading number at all).  Exponent notation is outside
the scope of this model. -/
def jsParseFloat (l : List Char) : Option ℚ :=
  let signAndRest : ℚ × List Char :=
    match l with
    | '-' :: rest => (-1, rest)
    | '+' :: rest => (1, rest)
    | _ => (1, l)
  let sign := signAndRest.1
  let afterSign := signAndRest.2
  let intPart := readDigits 0 0 afterSign
  match intPart.2.2 with
  | '.' :: rest =>
    let fracPart := readDigits 0 0 rest
    if intPart.2.1 = 0 ∧ fracPart.2.1 = 0 then none
    else some (sign * ((intPart.1 : ℚ) + (fracPart.1 : ℚ) / 10 ^ fracPart.2.1))
  | _ =>
    if intPart.2.1 = 0 then none
    else some (sign * (intPart.1 : ℚ))

/-- Model of JavaScript `Number` coercion as used inside
`new Date(parts[2], parts[1] - 1, parts[0])`: the empty string is `0`,
a digit string is its value, anything else is `NaN` (`none`).  Signs
and decimal points never occur in the date fields this is applied to. -/
def jsNumber (l : List Char) : Option ℤ :=
  let t := trimChars l
  if t.isEmpty then some 0
  else if t.all Char.isDigit then some ((readDigits 0 0 t).1 : ℤ)
  else none

/-! ### `DataLoader.parseCSV` / `DataLoader.parseDate`
(`data-loader.js`, lines 37–89). -/

/-- A parsed data row: `{ date: dateStr, price: price }`. -/
structure PricePoint where
  date : String
  price : ℚ
deriving DecidableEq, Repr

/-- Model of `parseDate` (data-loader.js lines 82–89) as a sort key:
for a `DD.MM.YYYY` string whose three fields coerce to numbers, the
key `y * 372 + (m - 1) * 31 + (d - 1)` is ordered exactly as
`new Date(y, m - 1, d)` whenever day and month are within range.
The generic `new Date(dateStr)` fallback for other shapes is
implementation-defined in JavaScript and is modelled as `none`. -/
def jsDateKey (dateStr : String) : Option ℤ :=
  match splitOnChar '.' dateStr.data with
  | [d, m, y] =>
    match jsNumber d, jsNumber m, jsNumber y with
    | some dv, some mv, some yv => some (yv * 372 + (mv - 1) * 31 + (dv - 1))
    | _, _, _ => none
  | _ => none

/-- An optional date key as an element of `WithBot ℤ`, an unparseable
date sitting at `⊥`. -/
def optKey : Option ℤ → WithBot ℤ
  | none => ⊥
  | some k => (k : WithBot ℤ)

/-- The sort key of a row, with an unparseable date mapped to `⊥`. -/
def rowKey (p : PricePoint) : WithBot ℤ :=
  optKey (jsDateKey p.date)

/-- The comparison `parseDate(a.date) - parseDate(b.date) ≤ 0` the sort
of `parseCSV` is driven by. -/
def rowLE (a b : PricePoint) : Prop :=
  rowKey a ≤ rowKey b

instance : DecidableRel rowLE := fun a b =>
  inferInstanceAs (Decidable (rowKey a ≤ rowKey b))

instance : IsTotal PricePoint rowLE :=
  ⟨fun a b => le_total (rowKey a) (rowKey b)⟩

instance : IsTrans PricePoint rowLE :=
  ⟨fun _ _ _ hab hbc => le_trans hab hbc⟩

/-- The row-collection loop of `parseCSV` (data-loader.js lines 44–60):
skip the header line, trim each line, skip blank lines, split on `;`,
require at least two fields, parse the price with `parseFloat`, and
keep the row only when the price is numeric and positive.  The rows
come out in file order, exactly as they are pushed into `parsedData`
(and, datewise, into `dateLabels`). -/
def parseRows (content : String) : List PricePoint :=
  let lines := splitOnChar '\n' (trimChars content.data)
  (lines.drop 1).filterMap fun lineRaw =>
    let line := trimChars lineRaw
    if line = [] then none
    else
      match splitOnChar ';' line with
      | p0 :: p1 :: _ =>
        match jsParseFloat (trimChars p1) with
        | some price =>
          if 0 < price then some ⟨String.mk (trimChars p0), price⟩ else none
        | none => none
      | _ => none

/-- The `parsedData.sort((a, b) => parseDate(a.date) - parseDate(b.date))`
step (data-loader.js lines 62–67): a stable ascending sort by parsed
date, modelled by insertion sort with `rowLE` (JavaScript `sort` is
stable and, with this comparator, ascending in the date key). -/
def sortRows (rows : List PricePoint) : List PricePoint :=
  List.insertionSort rowLE rows

/-- The return-calculation loop of `parseCSV` (data-loader.js lines
69–73): `return[i] = (price[i+1] - price[i]) / price[i]` over the
sorted price list. -/
def computeReturns (prices : List ℚ) : List ℚ :=
  (prices.zip prices.tail).map fun pr => (pr.2 - pr.1) / pr.1

/-! ### Normalization (`normalizeReturns` / `denormalize`,
data-loader.js lines 155–177). -/

/-- `Math.min(...returns)` on a non-empty list (the callers guard the
empty case; the `0` default is never reached through them). -/
def seriesMin : List ℚ → ℚ
  | [] => 0
  | x :: xs => xs.foldl min x

/-- `Math.max(...returns)` on a non-empty list. -/
def seriesMax : List ℚ → ℚ
  | [] => 0
  | x :: xs => xs.foldl max x

/-- The JavaScript idiom `r || 1`: substitute `1` when the range is
`0`. -/
def jsOrOne (r : ℚ) : ℚ :=
  if r = 0 then 1 else r

/-- The range `this.max - this.min || 1` computed from a return
series. -/
def normRange (rs : List ℚ) : ℚ :=
  jsOrOne (seriesMax rs - seriesMin rs)

/-- The map body of `normalizeReturns`: `(ret - min) / range`. -/
def normalizeValue (rs : List ℚ) (x : ℚ) : ℚ :=
  (x - seriesMin rs) / normRange rs

/-- The full normalized series `this.normalizedData`. -/
def normalizeList (rs : List ℚ) : List ℚ :=
  rs.map (normalizeValue rs)

/-! ### The `DataLoader` instance state and its methods. -/

/-- The fields of a `DataLoader` instance (data-loader.js lines 3–17).
Tensors are modelled by the nested lists they are built from
(`tf.tensor3d` / `tf.tensor2d` data). -/
structure DataLoaderState where
  data : Option (List PricePoint)
  normalizedData : Option (List ℚ)
  X_train : Option (List (List (List ℚ)))
  y_train : Option (List (List ℚ))
  X_test : Option (List (List (List ℚ)))
  y_test : Option (List (List ℚ))
  min : Option ℚ
  max : Option ℚ
  dateLabels : List String
  returns : List ℚ
  trainIndices : List ℕ
  testIndices : List ℕ
deriving DecidableEq, Repr

/-- The `DataLoader` constructor: every field `null` or empty. -/
def DataLoader.initState : DataLoaderState :=
  { data := none, normalizedData := none,
    X_train := none, y_train := none, X_test := none, y_test := none,
    min := none, max := none, dateLabels := [], returns := [],
    trainIndices := [], testIndices := [] }

/-- `DataLoader.parseCSV` (data-loader.js lines 37–80): collect the
valid rows and their date labels in file order, sort the rows by
parsed date, recompute the returns from the sorted prices, store
everything, and only then fail when fewer than 65 rows survived (the
fields are mutated before the `throw`, which the pair result records:
the first component is the state after the call, the second the
error, if any). -/
def DataLoader.parseCSV (s : DataLoaderState) (content : String) :
    DataLoaderState × Option String :=
  let rows := parseRows content
  let sorted := sortRows rows
  ({ s with
      dateLabels := rows.map PricePoint.date,
      returns := computeReturns (sorted.map PricePoint.price),
      data := some sorted },
   if sorted.length < 65 then
     some "Insufficient data. Need at least 65 days"
   else none)

/-- `DataLoader.normalizeReturns` (data-loader.js lines 155–169):
fails on an empty return series, otherwise stores `min`, `max` and the
normalized series computed from `this.returns`. -/
def DataLoader.normalizeReturns (s : DataLoaderState) :
    Except String DataLoaderState :=
  if s.returns.length = 0 then Except.error "No returns data available"
  else
    Except.ok { s with
      min := some (seriesMin s.returns),
      max := some (seriesMax s.returns),
      normalizedData := some (normalizeList s.returns) }

/-- `DataLoader.denormalize` (data-loader.js lines 171–177): fails when
the normalization parameters are absent, otherwise applies
`value * (max - min || 1) + min`. -/
def DataLoader.denormalize (s : DataLoaderState) (value : ℚ) :
    Except String ℚ :=
  match s.min, s.max with
  | some mn, some mx => Except.ok (value * jsOrOne (mx - mn) + mn)
  | _, _ => Except.error "Normalization parameters not available"

/-- The window-extraction loop of `prepareData` (data-loader.js lines
109–115): `seq = normalizedData.slice(i, i + windowSize)` for
`i < totalSamples`. -/
def buildSequences (normalized : List ℚ) (n windowSize : ℕ) :
    List (List ℚ) :=
  (List.range n).map fun i => (normalized.drop i).take windowSize

/-- The target-extraction loop of `prepareData`:
`target = normalizedData.slice(i + windowSize, i + windowSize + predictionHorizon)`. -/
def buildTargets (normalized : List ℚ) (n windowSize predictionHorizon : ℕ) :
    List (List ℚ) :=
  (List.range n).map fun i =>
    (normalized.drop (i + windowSize)).take predictionHorizon

/-- The local `totalSamples = this.returns.length - windowSize -
predictionHorizon + 1` of `prepareData` (data-loader.js line 96),
computed in `ℤ` because it is compared against `0`. -/
def totalSamples (s : DataLoaderState)
    (windowSize predictionHorizon : ℕ) : ℤ :=
  (s.returns.length : ℤ) - windowSize - predictionHorizon + 1

/-- The local `splitIdx = Math.floor(sequences.length * (1 - testSplit))`
of `prepareData` (data-loader.js line 118).  `Math.floor` is modelled
by `Rat.floor`; the final `toNat` coincides with the JavaScript
behaviour whenever `testSplit ≤ 1`, which the theorems below restrict
to. -/
def splitIndex (count : ℕ) (testSplit : ℚ) : ℕ :=
  (Rat.floor ((count : ℚ) * (1 - testSplit))).toNat

/-- `DataLoader.prepareData` (data-loader.js lines 91–153): guard
against a missing return series, fail when `totalSamples` is not
positive, normalize, build the overlapping windows and multi-step
targets, cut chronologically at `splitIdx`, and store the train/test
tensors and index lists. -/
def DataLoader.prepareData (s : DataLoaderState)
    (windowSize predictionHorizon : ℕ) (testSplit : ℚ) :
    Except String DataLoaderState :=
  if s.returns.length = 0 then
    Except.error "No data available. Load CSV first."
  else if totalSamples s windowSize predictionHorizon ≤ 0 then
    Except.error "Not enough data for the specified window size and prediction horizon"
  else
    match DataLoader.normalizeReturns s with
    | Except.error e => Except.error e
    | Except.ok s1 =>
      let normalized := s1.normalizedData.getD []
      let n := (totalSamples s windowSize predictionHorizon).toNat
      let sequences := buildSequences normalized n windowSize
      let targets := buildTargets normalized n windowSize predictionHorizon
      let splitIdx := splitIndex sequences.length testSplit
      Except.ok { s1 with
        trainIndices := List.range splitIdx,
        testIndices := (List.range (sequences.length - splitIdx)).map
          (fun i => i + splitIdx),
        X_train := some ((sequences.take splitIdx).map
          (fun seq => seq.map (fun v => [v]))),
        y_train := some (targets.take splitIdx),
        X_test := some ((sequences.drop splitIdx).map
          (fun seq => seq.map (fun v => [v]))),
        y_test := some (targets.drop splitIdx) }

/-- The state `prepareData` leaves behind on the success path, written
out once so that the theorems below can name its fields.  It is
definitionally what the success branch of `prepareData` constructs. -/
def preparedState (s : DataLoaderState)
    (windowSize predictionHorizon : ℕ) (testSplit : ℚ) : DataLoaderState :=
  let norm := normalizeList s.returns
  let n := (totalSamples s windowSize predictionHorizon).toNat
  let sequences := buildSequences norm n windowSize
  let targets := buildTargets norm n windowSize predictionHorizon
  let splitIdx := splitIndex sequences.length testSplit
  { s with
    min := some (seriesMin s.returns),
    max := some (seriesMax s.returns),
    normalizedData := some norm,
    trainIndices := List.range splitIdx,
    testIndices := (List.range (sequences.length - splitIdx)).map
      (fun i => i + splitIdx),
    X_train := some ((sequences.take splitIdx).map
      (fun seq => seq.map (fun v => [v]))),
    y_train := some (targets.take splitIdx),
    X_test := some ((sequences.drop splitIdx).map
      (fun seq => seq.map (fun v => [v]))),
    y_test := some (targets.drop splitIdx) }

/-- `DataLoader.dispose` (data-loader.js lines 214–225): the four
tensors are released and nulled, `normalizedData` is nulled, and no
other field is touched. -/
def DataLoader.dispose (s : DataLoaderState) : DataLoaderState :=
  { s with
    X_train := none, y_train := none, X_test := none, y_test := none,
    normalizedData := none }

/-- The plain-data result of `getHistoricalData`. -/
structure HistoricalData where
  dates : List String
  prices : List ℚ
  returns : List ℚ
  normalizedReturns : List ℚ
deriving DecidableEq, Repr

/-- `DataLoader.getHistoricalData` (data-loader.js lines 179–188):
`null` before any data is loaded, otherwise the date labels (file
order), the prices of the sorted series, the returns and the
normalized returns. -/
def DataLoader.getHistoricalData (s : DataLoaderState) :
    Option HistoricalData :=
  match s.data with
  | none => none
  | some d =>
    some { dates := s.dateLabels,
           prices := d.map PricePoint.price,
           returns := s.returns,
           normalizedReturns := s.normalizedData.getD [] }

/-! ### `GRUModel` (gru.js).  The TensorFlow model object is a black
box; the state keeps what the class itself tracks: whether a model has
been built (`this.model !== null`), whether training succeeded
(`this.isTrained`), and the stored training history.  Each async
method is a transition parametrised by the outcome of the black-box
call it awaits. -/

/-- The fields of a `GRUModel` instance (gru.js lines 3–9). -/
structure GRUState where
  modelBuilt : Bool
  isTrained : Bool
  trainingHistory : Option (List ℚ)
deriving DecidableEq, Repr

/-- The `GRUModel` constructor: `model = null`, `isTrained = false`,
`trainingHistory = null`. -/
def GRUModel.initState : GRUState :=
  { modelBuilt := false, isTrained := false, trainingHistory := none }

/-- The outcome of the awaited `this.model.fit(...)` call: it either
resolves with a training history or rejects with an error. -/
inductive FitOutcome where
  | success (history : List ℚ)
  | failure (e : String)
deriving DecidableEq, Repr

/-- `GRUModel.train` (gru.js lines 63–107): fails when no model is
built or the training data is missing; otherwise awaits `fit`.  On
resolution it stores the history and sets `isTrained = true`; on
rejection the `catch` block rethrows the error and no field is
assigned.  The result pairs the state after the call with the
`Except` the caller observes. -/
def GRUModel.train (s : GRUState) (hasX hasY : Bool) (outcome : FitOutcome) :
    GRUState × Except String (List ℚ) :=
  if s.modelBuilt = false then
    (s, Except.error "Model not built. Call buildModel() first.")
  else if hasX = false ∨ hasY = false then
    (s, Except.error "Training data not provided")
  else
    match outcome with
    | FitOutcome.success history =>
      ({ s with isTrained := true, trainingHistory := some history },
       Except.ok history)
    | FitOutcome.failure e => (s, Except.error e)

/-- The outcome of the black-box `this.model.predict(X)` call. -/
inductive PredictOutcome where
  | success (preds : List (List ℚ))
  | failure (e : String)
deriving DecidableEq, Repr

/-- `GRUModel.predict` (gru.js lines 109–127): fails with
`'Model not trained'` when no model is built or `isTrained` is false,
fails when the input is missing, and otherwise returns the
predictions array or rethrows the black box's error. -/
def GRUModel.predict (s : GRUState) (hasInput : Bool)
    (outcome : PredictOutcome) : Except String (List (List ℚ)) :=
  if s.modelBuilt = false ∨ s.isTrained = false then
    Except.error "Model not trained"
  else if hasInput = false then
    Except.error "Input data not provided"
  else
    match outcome with
    | PredictOutcome.success preds => Except.ok preds
    | PredictOutcome.failure e => Except.error e

/-- The outcome of the black-box `this.model.evaluate(X_test, y_test)`
call: the loss and mse tensors it returns, or a thrown error. -/
inductive EvalOutcome where
  | success (loss mse : ℚ)
  | failure (e : String)
deriving DecidableEq, Repr

/-- The `{loss, mse, rmse}` record `evaluate` returns. -/
structure EvalResult where
  loss : ℚ
  mse : ℚ
  rmse : ℝ

/-- `GRUModel.evaluate` (gru.js lines 129–157): fails with
`'Model not trained'` before training, rethrows any error of the
black-box evaluation (the `catch` block logs and rethrows, it does not
substitute defaults), and on success returns the loss, the mse and
`rmse = Math.sqrt(mse)`. -/
noncomputable def GRUModel.evaluate (s : GRUState) (hasX hasY : Bool)
    (outcome : EvalOutcome) : Except String EvalResult :=
  if s.modelBuilt = false ∨ s.isTrained = false then
    Except.error "Model not trained"
  else if hasX = false ∨ hasY = false then
    Except.error "Test data not provided"
  else
    match outcome with
    | EvalOutcome.success loss mse =>
      Except.ok { loss := loss, mse := mse, rmse := Real.sqrt (mse : ℝ) }
    | EvalOutcome.failure e => Except.error e

/-! ### Price projection (`StockPredictorApp.displayPredictions`,
app.js lines 318–346). -/

/-- The projection loop of `displayPredictions`: starting from the
last known price, each predicted return is compounded as
`priceChange = cumulativePrice * predictedReturn;
newPrice = cumulativePrice + priceChange`, and the new price becomes
the base for the next day. -/
def projectPrices (lastPrice : ℚ) : List ℚ → List ℚ
  | [] => []
  | p :: ps =>
    let newPrice := lastPrice + lastPrice * p
    newPrice :: projectPrices newPrice ps

/-! ### Concrete inputs used by the witnesses and counterexamples. -/

/-- A loader state holding a four-element return series. -/
def demoState : DataLoaderState :=
  { DataLoader.initState with returns := [1/10, 2/10, 3/10, 4/10] }

/-- A loader state whose returns are all equal — the degenerate
normalization case `max == min`. -/
def flatState : DataLoaderState :=
  { DataLoader.initState with returns := [3/10, 3/10] }

/-- A loader state still holding the normalization parameters and
returns of a previously loaded dataset. -/
def staleState : DataLoaderState :=
  { DataLoader.initState with
      min := some (1/2), max := some (3/4), returns := [1/5] }

/-- A CSV text whose two data rows carry the same date. -/
def dupText : String := "Date;Price\n01.01.2020;1\n01.01.2020;2"

/-- A CSV text whose data rows are not in ascending date order. -/
def misText : String :=
  "Date;Price\n02.01.2020;10\n01.01.2020;11\n03.01.2020;12"

/-- A built-but-untrained model state. -/
def builtState : GRUState :=
  { modelBuilt := true, isTrained := false, trainingHistory := none }

/-- A built and successfully trained model state. -/
def trainedState : GRUState :=
  { modelBuilt := true, isTrained := true, trainingHistory := some [1] }

/-! ## Theorems -/

/-- The substituted range `max - min || 1` is never zero. -/
lemma jsOrOne_ne_zero (r : ℚ) : jsOrOne r ≠ 0 := by
  unfold jsOrOne
  split
  · exact one_ne_zero
  · assumption

/-- C2: for every return series and every rational `x`,
`denormalize` inverts `normalizeReturns`' per-element map exactly:
after a successful `normalizeReturns` on a state `s`, applying
`denormalize` (which uses the stored `min`/`max` through
`max - min || 1`) to `normalizeValue s.returns x = (x - min) / range`
gives back exactly `x`, including the degenerate case
`max == min` where the range is substituted by `1`. -/
theorem normalize_denormalize_roundtrip (s s₁ : DataLoaderState)
    (h : DataLoader.normalizeReturns s = Except.ok s₁) (x : ℚ) :
    DataLoader.denormalize s₁ (normalizeValue s.returns x) = Except.ok x := by
  unfold DataLoader.normalizeReturns at h
  by_cases h0 : s.returns.length = 0
  · simp [h0] at h
  · simp only [h0, if_false] at h
    injection h with h
    subst h
    unfold DataLoader.denormalize normalizeValue normRange
    simp only
    congr 1
    rw [div_mul_cancel₀ _ (jsOrOne_ne_zero _)]
    ring

/-- Witness for C2 at the degenerate all-equal return series. -/
theorem normalize_denormalize_roundtrip_witness :
    ∃ s₁, DataLoader.normalizeReturns flatState = Except.ok s₁ ∧
      DataLoader.denormalize s₁ (normalizeValue flatState.returns (7/3)) =
        Except.ok (7/3) := by
  refine ⟨_, rfl, ?_⟩
  exact normalize_denormalize_roundtrip flatState _ rfl (7/3)

/-- C3: a training run whose underlying `fit` call rejects propagates
that error to the caller and leaves the model exactly as it was; in
particular a model that was not trained before the call (the state the
claim speaks of) still has `isTrained = false`, so the failing run is
never reported as a successful, usable model. -/
theorem train_failure_leaves_untrained (s : GRUState) (e : String)
    (hb : s.modelBuilt = true) (ht : s.isTrained = false) :
    GRUModel.train s true true (FitOutcome.failure e) = (s, Except.error e) ∧
    ((GRUModel.train s true true (FitOutcome.failure e)).1).isTrained = false := by
  unfold GRUModel.train
  simp [hb, ht]

/-- Witness for C3 at a concrete built, untrained state. -/
theorem train_failure_leaves_untrained_witness :
    GRUModel.train builtState true true (FitOutcome.failure "boom") =
      (builtState, Except.error "boom") ∧
    ((GRUModel.train builtState true true
        (FitOutcome.failure "boom")).1).isTrained = false :=
  train_failure_leaves_untrained builtState "boom" rfl rfl

/-- C7: calling `predict` on a state that has seen no successful
training (`isTrained = false`, the state every `GRUModel` starts in,
as the first conjunct of the conclusion records) fails with the
model-not-trained error whatever the input and whatever the black box
would have produced — no prediction output is returned. -/
theorem predict_untrained_fails (s : GRUState) (hasInput : Bool)
    (outcome : PredictOutcome) (h : s.isTrained = false) :
    GRUModel.predict s hasInput outcome = Except.error "Model not trained" ∧
    GRUModel.initState.isTrained = false := by
  refine ⟨?_, rfl⟩
  unfold GRUModel.predict
  simp [h]

/-- Witness for C7 at the freshly constructed model state. -/
theorem predict_untrained_fails_witness :
    GRUModel.predict GRUModel.initState true
        (PredictOutcome.success [[1]]) = Except.error "Model not trained" ∧
    GRUModel.initState.isTrained = false :=
  predict_untrained_fails GRUModel.initState true
    (PredictOutcome.success [[1]]) rfl

/-- C8: `evaluate` fails with the model-not-trained error whenever
`isTrained` is false; on a trained model with test data present, an
internal failure of the black-box evaluation is rethrown unchanged
(never downgraded to default metrics), and a successful evaluation
returns `{loss, mse, rmse}` with `rmse = Real.sqrt mse`, computed from
the test tensors `evaluate` was handed. -/
theorem evaluate_spec (s : GRUState) (loss mse : ℚ) (e : String)
    (hb : s.modelBuilt = true) (ht : s.isTrained = true) :
    (∀ (s₂ : GRUState) (hx hy : Bool) (oc : EvalOutcome),
        s₂.isTrained = false →
        GRUModel.evaluate s₂ hx hy oc = Except.error "Model not trained") ∧
    GRUModel.evaluate s true true (EvalOutcome.failure e) = Except.error e ∧
    GRUModel.evaluate s true true (EvalOutcome.success loss mse) =
      Except.ok { loss := loss, mse := mse, rmse := Real.sqrt (mse : ℝ) } := by
  refine ⟨?_, ?_, ?_⟩
  · intro s₂ hx hy oc h₂
    unfold GRUModel.evaluate
    simp [h₂]
  · unfold GRUModel.evaluate
    simp [hb, ht]
  · unfold GRUModel.evaluate
    simp [hb, ht]

/-- Witness for C8 at a concrete trained state, with the square root
of the concrete mse evaluated. -/
theorem evaluate_spec_witness :
    ((∀ (s₂ : GRUState) (hx hy : Bool) (oc : EvalOutcome),
        s₂.isTrained = false →
        GRUModel.evaluate s₂ hx hy oc = Except.error "Model not trained") ∧
     GRUModel.evaluate trainedState true true (EvalOutcome.failure "boom") =
       Except.error "boom" ∧
     GRUModel.evaluate trainedState true true (EvalOutcome.success 1 4) =
       Except.ok { loss := 1, mse := 4, rmse := Real.sqrt ((4 : ℚ) : ℝ) }) ∧
    Real.sqrt ((4 : ℚ) : ℝ) = 2 := by
  constructor
  · exact evaluate_spec trainedState 1 4 "boom" rfl rfl
  · rw [show ((4 : ℚ) : ℝ) = (2 : ℝ) ^ 2 by norm_num]
    exact Real.sqrt_sq (by norm_num)

/-- The projection produces one price per predicted return. -/
lemma projectPrices_length (preds : List ℚ) :
    ∀ lastPrice : ℚ, (projectPrices lastPrice preds).length = preds.length := by
  induction preds with
  | nil => intro lastPrice; rfl
  | cons p ps ih =>
    intro lastPrice
    simp only [projectPrices, List.length_cons, ih]

/-- The first projected price compounds the last known price once. -/
lemma projectPrices_head (lastPrice r : ℚ) (preds : List ℚ)
    (h : preds[0]? = some r) :
    (projectPrices lastPrice preds)[0]? = some (lastPrice + lastPrice * r) := by
  cases preds with
  | nil => simp at h
  | cons p ps =>
    simp only [List.getElem?_cons_zero, Option.some.injEq] at h
    subst h
    simp [projectPrices]

/-- Each later projected price compounds its predecessor. -/
lemma projectPrices_step (preds : List ℚ) :
    ∀ (lastPrice : ℚ) (k : ℕ) (p r : ℚ),
      (projectPrices lastPrice preds)[k]? = some p →
      preds[k + 1]? = some r →
      (projectPrices lastPrice preds)[k + 1]? = some (p + p * r) := by
  induction preds with
  | nil => intro lastPrice k p r hp _; simp [projectPrices] at hp
  | cons q qs ih =>
    intro lastPrice k p r hp hr
    cases k with
    | zero =>
      simp only [projectPrices, List.getElem?_cons_zero, Option.some.injEq] at hp
      simp only [List.getElem?_cons_succ] at hr
      subst hp
      simpa [projectPrices] using
        projectPrices_head (lastPrice + lastPrice * q) r qs hr
    | succ k =>
      simp only [projectPrices, List.getElem?_cons_succ] at hp hr ⊢
      exact ih (lastPrice + lastPrice * q) k p r hp hr

/-- C6: price projection is multiplicative compounding.  The loop of
`displayPredictions` produces one price per predicted return; the
first price is `lastPrice * (1 + return[0])`, and each following
price is the previous price times `1 + return[k]`; in particular for
`lastPrice = 100` and predicted returns `[0.01, -0.02]` the projected
prices are `[101, 98.98]`. -/
theorem projectPrices_compounds :
    (∀ (lastPrice : ℚ) (preds : List ℚ),
      (projectPrices lastPrice preds).length = preds.length) ∧
    (∀ (lastPrice r : ℚ) (preds : List ℚ), preds[0]? = some r →
      (projectPrices lastPrice preds)[0]? = some (lastPrice * (1 + r))) ∧
    (∀ (lastPrice : ℚ) (preds : List ℚ) (k : ℕ) (p r : ℚ),
      (projectPrices lastPrice preds)[k]? = some p →
      preds[k + 1]? = some r →
      (projectPrices lastPrice preds)[k + 1]? = some (p * (1 + r))) ∧
    projectPrices 100 [1/100, -(2/100)] = [101, 9898/100] := by
  refine ⟨fun lastPrice preds => projectPrices_length preds lastPrice,
    ?_, ?_, ?_⟩
  · intro lastPrice r preds h
    rw [projectPrices_head lastPrice r preds h]
    ring_nf
  · intro lastPrice preds k p r hp hr
    rw [projectPrices_step preds lastPrice k p r hp hr]
    ring_nf
  · norm_num [projectPrices]

/-- Witness for C6: the second projected price of the concrete example
is the first one compounded by the second return. -/
theorem projectPrices_compounds_witness :
    (projectPrices 100 [1/100, -(2/100)])[1]? =
      some ((101 : ℚ) * (1 + -(2/100))) :=
  projectPrices_compounds.2.2.1 100 [1/100, -(2/100)] 0 101 (-(2/100))
    (by norm_num [projectPrices]) rfl

/-- C5 counterexample: `dispose` does not clear the normalization
parameters or the return series.  On a concrete state still holding
`min`, `max` and returns from a previous dataset, they all survive
`dispose` unchanged, contradicting the claim that after
`DataLoader.dispose()` the returns series and the normalization
parameters are cleared. -/
theorem dispose_retains_params_counterexample :
    (DataLoader.dispose staleState).min = some (1/2) ∧
    (DataLoader.dispose staleState).max = some (3/4) ∧
    (DataLoader.dispose staleState).returns = [1/5] ∧
    (DataLoader.dispose staleState).min ≠ none ∧
    (DataLoader.dispose staleState).max ≠ none ∧
    (DataLoader.dispose staleState).returns ≠ [] := by
  refine ⟨rfl, rfl, rfl, ?_, ?_, ?_⟩ <;> simp [DataLoader.dispose, staleState]

/-- C5 as amended: `dispose` clears exactly the train/test tensors and
the normalized series, leaving `min`, `max`, `returns` and `data` in
place; stale normalization parameters still cannot reach a newly
loaded series, because `parseCSV` recomputes the returns from the new
content alone (whatever state it runs on) and `normalizeReturns` —
which `prepareData` runs before building tensors — recomputes `min`
and `max` from the current returns alone. -/
theorem dispose_clears_tensors_only (s : DataLoaderState) :
    (DataLoader.dispose s).X_train = none ∧
    (DataLoader.dispose s).y_train = none ∧
    (DataLoader.dispose s).X_test = none ∧
    (DataLoader.dispose s).y_test = none ∧
    (DataLoader.dispose s).normalizedData = none ∧
    (DataLoader.dispose s).min = s.min ∧
    (DataLoader.dispose s).max = s.max ∧
    (DataLoader.dispose s).returns = s.returns ∧
    (DataLoader.dispose s).data = s.data ∧
    (∀ content : String,
      ((DataLoader.parseCSV (DataLoader.dispose s) content).1).returns =
        computeReturns ((sortRows (parseRows content)).map PricePoint.price)) ∧
    (∀ s₂ s₃ : DataLoaderState, DataLoader.normalizeReturns s₂ = Except.ok s₃ →
      s₃.min = some (seriesMin s₂.returns) ∧
      s₃.max = some (seriesMax s₂.returns)) := by
  refine ⟨rfl, rfl, rfl, rfl, rfl, rfl, rfl, rfl, rfl, fun content => rfl, ?_⟩
  intro s₂ s₃ h
  unfold DataLoader.normalizeReturns at h
  by_cases h0 : s₂.returns.length = 0
  · simp [h0] at h
  · simp only [h0, if_false] at h
    injection h with h
    subst h
    exact ⟨rfl, rfl⟩

/-- Witness for C5's amended theorem at a concrete stale state and a
concrete reloaded text: the recomputed parameters come from the new
returns only. -/
theorem dispose_clears_tensors_only_witness :
    (DataLoader.dispose staleState).X_train = none ∧
    (DataLoader.dispose staleState).y_train = none ∧
    (DataLoader.dispose staleState).X_test = none ∧
    (DataLoader.dispose staleState).y_test = none ∧
    (DataLoader.dispose staleState).normalizedData = none ∧
    (DataLoader.dispose staleState).min = staleState.min ∧
    (DataLoader.dispose staleState).max = staleState.max ∧
    (DataLoader.dispose staleState).returns = staleState.returns ∧
    (DataLoader.dispose staleState).data = staleState.data ∧
    (∀ content : String,
      ((DataLoader.parseCSV (DataLoader.dispose staleState) content).1).returns =
        computeReturns ((sortRows (parseRows content)).map PricePoint.price)) ∧
    (∀ s₂ s₃ : DataLoaderState, DataLoader.normalizeReturns s₂ = Except.ok s₃ →
      s₃.min = some (seriesMin s₂.returns) ∧
      s₃.max = some (seriesMax s₂.returns)) :=
  dispose_clears_tensors_only staleState

/-- Every row the collection loop of `parseCSV` keeps has a positive
price: the loop only pushes a row after checking
`!isNaN(price) && price > 0`. -/
lemma parseRows_price_pos (content : String) :
    ∀ p ∈ parseRows content, 0 < p.price := by
  intro p hp
  unfold parseRows at hp
  rw [List.mem_filterMap] at hp
  obtain ⟨line, _, hf⟩ := hp
  dsimp only at hf
  split at hf
  · exact absurd hf (by simp)
  · split at hf
    · split at hf
      · split at hf
        · injection hf with hf
          subst hf
          assumption
        · exact absurd hf (by simp)
      · exact absurd hf (by simp)
    · exact absurd hf (by simp)

/-- The state `parseCSV` leaves behind always holds the sorted row
list, whether or not the 65-row check then throws. -/
lemma parseCSV_data (s : DataLoaderState) (content : String) :
    ((DataLoader.parseCSV s content).1).data =
      some (sortRows (parseRows content)) := rfl

set_option maxRecDepth 1000000 in
/-- C9 counterexample: `parseCSV` does not deduplicate dates.  On a
text whose two data rows carry the same date, the stored series
retains both entries, so its date list is not duplicate-free —
contradicting the claim that no two entries with the same date are
retained after parse. -/
theorem parseCSV_duplicate_dates_counterexample :
    ((((DataLoader.parseCSV DataLoader.initState dupText).1).data.getD []).map
        PricePoint.date) = ["01.01.2020", "01.01.2020"] ∧
    ¬ ((((DataLoader.parseCSV DataLoader.initState dupText).1).data.getD []).map
        PricePoint.date).Nodup := by
  constructor
  · with_unfolding_all decide
  · with_unfolding_all decide

/-- C9 as amended: every row of the series `parseCSV` stores has a
positive numeric price, and the series is sorted ascending — but only
non-strictly — in the parsed date key, and is a permutation of all
valid-price rows of the file: duplicate dates are retained, not
removed.  The date-validity hypothesis restricts the statement to
inputs on which the model of JavaScript's date comparator is
faithful (every retained row carries a parseable `DD.MM.YYYY` date). -/
theorem parseCSV_series_invariants (s : DataLoaderState) (content : String)
    (hvalid : ∀ p ∈ parseRows content, (jsDateKey p.date).isSome = true) :
    (∀ p ∈ ((DataLoader.parseCSV s content).1).data.getD [], 0 < p.price) ∧
    List.Sorted (· ≤ ·)
      ((((DataLoader.parseCSV s content).1).data.getD []).map rowKey) ∧
    List.Perm (((DataLoader.parseCSV s content).1).data.getD [])
      (parseRows content) := by
  rw [parseCSV_data]
  refine ⟨?_, ?_, List.perm_insertionSort rowLE (parseRows content)⟩
  · intro p hp
    exact parseRows_price_pos content p
      ((List.mem_insertionSort rowLE).mp hp)
  · exact (List.sorted_insertionSort rowLE (parseRows content)).map
      rowKey (fun a b hab => hab)

set_option maxRecDepth 1000000 in
/-- Witness for C9's amended theorem on a concrete out-of-order text
with parseable dates. -/
theorem parseCSV_series_invariants_witness :
    (∀ p ∈ ((DataLoader.parseCSV DataLoader.initState misText).1).data.getD [],
      0 < p.price) ∧
    List.Sorted (· ≤ ·)
      ((((DataLoader.parseCSV DataLoader.initState misText).1).data.getD
        []).map rowKey) ∧
    List.Perm
      (((DataLoader.parseCSV DataLoader.initState misText).1).data.getD [])
      (parseRows misText) :=
  parseCSV_series_invariants DataLoader.initState misText
    (by with_unfolding_all decide)

/-- C10: `getHistoricalData` pairs `dates` and `prices` positionally,
but `dateLabels` is collected in file order before the series is
sorted: whenever the valid rows of the file are not already in
ascending date order, some position `i` holds a `dates[i]` whose
parsed date key differs from the date key of the row whose price sits
at `prices[i]` (the `i`-th sorted row). -/
theorem getHistoricalData_dates_misaligned (s : DataLoaderState)
    (content : String)
    (hvalid : ∀ p ∈ parseRows content, (jsDateKey p.date).isSome = true)
    (hunsorted : ¬ List.Sorted (· ≤ ·) ((parseRows content).map rowKey)) :
    ∃ hd, DataLoader.getHistoricalData ((DataLoader.parseCSV s content).1) =
        some hd ∧
      hd.prices = (sortRows (parseRows content)).map PricePoint.price ∧
      hd.dates = (parseRows content).map PricePoint.date ∧
      ∃ i : ℕ, (hd.dates.map jsDateKey)[i]? ≠
        ((sortRows (parseRows content)).map (fun p => jsDateKey p.date))[i]? := by
  refine ⟨_, rfl, rfl, rfl, ?_⟩
  by_contra hno
  push_neg at hno
  have heq : ((parseRows content).map PricePoint.date).map jsDateKey =
      (sortRows (parseRows content)).map (fun p => jsDateKey p.date) :=
    List.ext_getElem? hno
  have h2 : (parseRows content).map rowKey =
      (sortRows (parseRows content)).map rowKey := by
    have h3 := congrArg (List.map optKey) heq
    simpa only [List.map_map, Function.comp, rowKey] using h3
  have hs : List.Sorted (· ≤ ·) ((sortRows (parseRows content)).map rowKey) :=
    (List.sorted_insertionSort rowLE (parseRows content)).map
      rowKey (fun a b hab => hab)
  rw [← h2] at hs
  exact hunsorted hs

set_option maxRecDepth 1000000 in
/-- Witness for C10 on a concrete text whose rows are out of order. -/
theorem getHistoricalData_dates_misaligned_witness :
    ∃ hd, DataLoader.getHistoricalData
        ((DataLoader.parseCSV DataLoader.initState misText).1) = some hd ∧
      hd.prices = (sortRows (parseRows misText)).map PricePoint.price ∧
      hd.dates = (parseRows misText).map PricePoint.date ∧
      ∃ i : ℕ, (hd.dates.map jsDateKey)[i]? ≠
        ((sortRows (parseRows misText)).map (fun p => jsDateKey p.date))[i]? :=
  getHistoricalData_dates_misaligned DataLoader.initState misText
    (by with_unfolding_all decide) (by with_unfolding_all decide)

/-- The computable `Rat.floor` used in the embedding is the
mathematical floor. -/
lemma ratFloor_eq_intFloor (q : ℚ) : Rat.floor q = ⌊q⌋ := by
  rw [Rat.floor_def', Rat.floor_def]

/-- For a test fraction that is not negative, the split index never
exceeds the sample count. -/
lemma splitIndex_le (n : ℕ) (t : ℚ) (ht0 : 0 ≤ t) : splitIndex n t ≤ n := by
  unfold splitIndex
  rw [ratFloor_eq_intFloor]
  have hle : (n : ℚ) * (1 - t) ≤ (n : ℚ) :=
    mul_le_of_le_one_right (by positivity) (by linarith)
  have h1 : ⌊(n : ℚ) * (1 - t)⌋ ≤ (n : ℤ) :=
    le_of_le_of_eq (Int.floor_le_floor hle) (Int.floor_natCast n)
  exact Int.toNat_le.mpr h1

/-- One window per sample index. -/
lemma buildSequences_length (norm : List ℚ) (n W : ℕ) :
    (buildSequences norm n W).length = n := by
  simp [buildSequences]

/-- One target per sample index. -/
lemma buildTargets_length (norm : List ℚ) (n W H : ℕ) :
    (buildTargets norm n W H).length = n := by
  simp [buildTargets]

/-- When both guards pass, `prepareData` succeeds with exactly the
state `preparedState` spells out. -/
lemma prepareData_eq_ok (s : DataLoaderState) (W H : ℕ) (t : ℚ)
    (h0 : ¬ s.returns.length = 0) (h1 : ¬ totalSamples s W H ≤ 0) :
    DataLoader.prepareData s W H t = Except.ok (preparedState s W H t) := by
  unfold DataLoader.prepareData preparedState DataLoader.normalizeReturns
  simp [h0, h1]

/-- A successful `prepareData` run forces both guards to have passed
and pins the resulting state. -/
lemma prepareData_ok_elim (s : DataLoaderState) (W H : ℕ) (t : ℚ)
    (s' : DataLoaderState)
    (h : DataLoader.prepareData s W H t = Except.ok s') :
    s' = preparedState s W H t ∧
    ¬ s.returns.length = 0 ∧ ¬ totalSamples s W H ≤ 0 := by
  by_cases h0 : s.returns.length = 0
  · rw [DataLoader.prepareData] at h
    simp [h0] at h
  by_cases h1 : totalSamples s W H ≤ 0
  · rw [DataLoader.prepareData] at h
    simp [h0, h1] at h
  · rw [prepareData_eq_ok s W H t h0 h1] at h
    injection h with h
    exact ⟨h.symm, h0, h1⟩

/-- C4: the chronological split preserves temporal order.  Whatever
dataset `prepareData` succeeds on, every index recorded in
`testIndices` (the originating start index of a test window) is at
least every index recorded in `trainIndices`: the windows are never
shuffled across the train/test boundary. -/
theorem prepareData_chronological_split (s : DataLoaderState) (W H : ℕ)
    (t : ℚ) (s' : DataLoaderState)
    (h : DataLoader.prepareData s W H t = Except.ok s') :
    ∀ i ∈ s'.testIndices, ∀ j ∈ s'.trainIndices, j ≤ i := by
  obtain ⟨rfl, -, -⟩ := prepareData_ok_elim s W H t s' h
  intro i hi j hj
  simp only [preparedState, List.mem_map, List.mem_range] at hi hj
  obtain ⟨k, -, rfl⟩ := hi
  omega

/-- C1: `prepareData` on a return series of length `L` with window
size `W`, horizon `H` and test fraction `t` fails whenever
`totalSamples = L - W - H + 1 ≤ 0`, and otherwise produces exactly
`totalSamples` window/target pairs — the `i`-th window being
`normalizedReturns[i : i+W]` and the `i`-th target
`normalizedReturns[i+W : i+W+H]` — split at
`splitIdx = ⌊totalSamples * (1 - t)⌋`: pairs with index below the cut
go to train, the rest to test in original order, and the train and
test counts sum to `totalSamples`. -/
theorem prepareData_window_count_split (s : DataLoaderState) (W H : ℕ)
    (t : ℚ) (hW : 1 ≤ W) (ht0 : 0 ≤ t) (ht1 : t ≤ 1) :
    (totalSamples s W H ≤ 0 →
      ∃ e, DataLoader.prepareData s W H t = Except.error e) ∧
    (0 < totalSamples s W H →
      ∃ (s' : DataLoaderState) (n k : ℕ),
        DataLoader.prepareData s W H t = Except.ok s' ∧
        n = (totalSamples s W H).toNat ∧
        (n : ℤ) = (s.returns.length : ℤ) - W - H + 1 ∧
        k = splitIndex n t ∧
        k ≤ n ∧
        (buildSequences (normalizeList s.returns) n W).length = n ∧
        (buildTargets (normalizeList s.returns) n W H).length = n ∧
        (∀ i, i < n →
          (buildSequences (normalizeList s.returns) n W)[i]? =
            some (((normalizeList s.returns).drop i).take W) ∧
          (buildTargets (normalizeList s.returns) n W H)[i]? =
            some (((normalizeList s.returns).drop (i + W)).take H)) ∧
        s'.X_train = some
          (((buildSequences (normalizeList s.returns) n W).take k).map
            (fun seq => seq.map (fun v => [v]))) ∧
        s'.y_train = some
          ((buildTargets (normalizeList s.returns) n W H).take k) ∧
        s'.X_test = some
          (((buildSequences (normalizeList s.returns) n W).drop k).map
            (fun seq => seq.map (fun v => [v]))) ∧
        s'.y_test = some
          ((buildTargets (normalizeList s.returns) n W H).drop k) ∧
        (s'.y_train.getD []).length = k ∧
        (s'.y_train.getD []).length + (s'.y_test.getD []).length = n) := by
  constructor
  · intro hle
    by_cases h0 : s.returns.length = 0
    · exact ⟨"No data available. Load CSV first.",
        by rw [DataLoader.prepareData]; simp [h0]⟩
    · exact ⟨"Not enough data for the specified window size and prediction horizon",
        by rw [DataLoader.prepareData]; simp [h0, hle]⟩
  · intro hpos
    have h0 : ¬ s.returns.length = 0 := by
      intro h0
      unfold totalSamples at hpos
      rw [h0] at hpos
      omega
    have h1 : ¬ totalSamples s W H ≤ 0 := not_le.mpr hpos
    refine ⟨preparedState s W H t, (totalSamples s W H).toNat,
      splitIndex (totalSamples s W H).toNat t,
      prepareData_eq_ok s W H t h0 h1, rfl, ?_, rfl, ?_, ?_, ?_, ?_,
      ?_, ?_, ?_, ?_, ?_, ?_⟩
    · unfold totalSamples at hpos ⊢
      omega
    · exact splitIndex_le _ t ht0
    · exact buildSequences_length _ _ _
    · exact buildTargets_length _ _ _ _
    · intro i hi
      constructor
      · simp [buildSequences, List.getElem?_range hi]
      · simp [buildTargets, List.getElem?_range hi]
    · simp only [preparedState, buildSequences_length]
    · simp only [preparedState, buildSequences_length]
    · simp only [preparedState, buildSequences_length]
    · simp only [preparedState, buildSequences_length]
    · simp only [preparedState, buildSequences_length, Option.getD_some,
        List.length_take, buildTargets_length]
      exact Nat.min_eq_left (splitIndex_le _ t ht0)
    · simp only [preparedState, buildSequences_length, Option.getD_some,
        List.length_take, List.length_drop, buildTargets_length]
      have hk := splitIndex_le (totalSamples s W H).toNat t ht0
      omega

/-- Witness for C1 at a concrete four-return series with `W = 2`,
`H = 1`, `t = 1/2`: two pairs, one train and one test. -/
theorem prepareData_window_count_split_witness :
    (0 : ℤ) < totalSamples demoState 2 1 ∧
    (∃ (s' : DataLoaderState) (n k : ℕ),
      DataLoader.prepareData demoState 2 1 (1/2) = Except.ok s' ∧
      n = (totalSamples demoState 2 1).toNat ∧
      (s'.y_train.getD []).length + (s'.y_test.getD []).length = n) ∧
    (totalSamples demoState 2 1).toNat = 2 := by
  refine ⟨by with_unfolding_all decide, ?_, by with_unfolding_all decide⟩
  obtain ⟨s', n, k, hok, hn, -, -, -, -, -, -, -, -, -, -, -, hsum⟩ :=
    (prepareData_window_count_split demoState 2 1 (1/2) (by decide)
      (by with_unfolding_all decide) (by with_unfolding_all decide)).2
      (by with_unfolding_all decide)
  exact ⟨s', n, k, hok, hn, hsum⟩

set_option maxRecDepth 1000000 in
/-- Witness for C4 at the same concrete dataset: the single test index
`1` is at least the single train index `0`. -/
theorem prepareData_chronological_split_witness :
    DataLoader.prepareData demoState 2 1 (1/2) =
      Except.ok (preparedState demoState 2 1 (1/2)) ∧
    1 ∈ (preparedState demoState 2 1 (1/2)).testIndices ∧
    0 ∈ (preparedState demoState 2 1 (1/2)).trainIndices ∧
    (0 : ℕ) ≤ 1 := by
  have hok : DataLoader.prepareData demoState 2 1 (1/2) =
      Except.ok (preparedState demoState 2 1 (1/2)) :=
    prepareData_eq_ok demoState 2 1 (1/2) (by decide)
      (by with_unfolding_all decide)
  have hi : 1 ∈ (preparedState demoState 2 1 (1/2)).testIndices := by
    with_unfolding_all decide
  have hj : 0 ∈ (preparedState demoState 2 1 (1/2)).trainIndices := by
    with_unfolding_all decide
  exact ⟨hok, hi, hj,
    prepareData_chronological_split demoState 2 1 (1/2) _ hok 1 hi 0 hj⟩

end SP500
